import Mathlib

/-!
Shallow embedding of the QuillBoard front end (quillboard-manager):
the authentication/session store (src/contexts/AuthContext.tsx), the
route guard (App.tsx), the API client (src/lib/api.ts), the register
form handler (src/pages/auth/Register.tsx) and the admin approve
handlers (AdminArticles / AdminPending).

Modelling conventions:
- Browser localStorage is a record with one optional slot per key used
  by the program (token, user, isAdmin).  localStorage.getItem returns
  a string or null, modelled as Option String; JavaScript truthiness
  of such a value (non-null and non-empty) is the function jsTruthy.
- JSON.stringify of the user record always yields a non-empty string,
  and JSON.parse (JSON.stringify u) structurally equals u for this
  plain record.  Storage models the contents the program itself
  writes (its user slot is Option User: the serialization round trip
  abstracted as identity, the truthiness of the stored string as
  Option.isSome).  RawStorage additionally represents arbitrary
  content of the user key, including strings on which JSON.parse
  throws; initializeEffectsRaw is the mount effect over it, recording
  the setters that ran before any throw, and it agrees with
  initializeEffects wherever no throw occurs
  (initializeEffectsRaw_agrees).
- React useState setters are modelled as a list of effects applied in
  order to the state record; asynchronous handlers are modelled as
  functions from the outcome of the awaited call to the trace of
  requests they issue, which makes the await-sequencing explicit.
-/

/-- The User record of AuthContext.tsx: id, username, email. -/
structure User where
  id : String
  username : String
  email : String
deriving DecidableEq, Repr

/-- The Session state held by AuthProvider: the four useState cells. -/
structure Session where
  token : Option String
  user : Option User
  isAdmin : Bool
  isLoading : Bool
deriving DecidableEq, Repr

/-- Durable browser storage restricted to the three keys the program
uses: token, user (serialized record, abstracted as the record) and
isAdmin (the string written by Bool.toString). -/
structure Storage where
  token : Option String
  user : Option User
  isAdmin : Option String
deriving DecidableEq, Repr

/-- JavaScript truthiness of a localStorage.getItem result: non-null
and non-empty. -/
def jsTruthy : Option String → Bool
  | none => false
  | some s => s != ""

/-- The useState initial values of AuthProvider: user null,
isAdmin false, token null, isLoading true. -/
def initialState : Session :=
  { token := none, user := none, isAdmin := false, isLoading := true }

/-- Storage with none of the three keys present. -/
def emptyStorage : Storage :=
  { token := none, user := none, isAdmin := none }

/-- One React state-setter call made by AuthProvider. -/
inductive AuthEffect where
  | setToken (v : Option String)
  | setUser (v : Option User)
  | setIsAdmin (b : Bool)
  | setIsLoading (b : Bool)
deriving DecidableEq, Repr

/-- Apply one setter to the Session record. -/
def applyEffect (s : Session) : AuthEffect → Session
  | .setToken v => { s with token := v }
  | .setUser v => { s with user := v }
  | .setIsAdmin b => { s with isAdmin := b }
  | .setIsLoading b => { s with isLoading := b }

/-- Apply a list of setters in order. -/
def applyEffects (s : Session) (es : List AuthEffect) : Session :=
  es.foldl applyEffect s

/-- The setter calls made by the mount effect of AuthProvider over
contents whose user key, when reached, is valid JSON: read the three
keys; if storedToken and storedUser are both truthy, set token, user
and isAdmin (the latter by comparison of the stored string with
"true"); then finish with setIsLoading false.  Contents on which
JSON.parse throws are modelled by initializeEffectsRaw. -/
def initializeEffects (st : Storage) : List AuthEffect :=
  (if jsTruthy st.token && st.user.isSome then
    [AuthEffect.setToken st.token, AuthEffect.setUser st.user,
     AuthEffect.setIsAdmin (st.isAdmin == some "true")]
  else []) ++ [AuthEffect.setIsLoading false]

/-- The Session produced by running the mount effect over a Session. -/
def initializeSession (s : Session) (st : Storage) : Session :=
  applyEffects s (initializeEffects st)

/-- login of AuthContext.tsx: set the three state cells and persist the
three storage keys; adminStatus defaults to false when omitted; the
isAdmin key stores adminStatus.toString(). -/
def login (s : Session) (st : Storage) (newToken : String) (newUser : User)
    (adminStatus : Bool := false) : Session × Storage :=
  ({ s with token := some newToken, user := some newUser, isAdmin := adminStatus },
   { st with token := some newToken, user := some newUser,
             isAdmin := some (toString adminStatus) })

/-- logout of AuthContext.tsx: clear the three state cells and remove
the three storage keys. -/
def logout (s : Session) (st : Storage) : Session × Storage :=
  ({ s with token := none, user := none, isAdmin := false },
   { st with token := none, user := none, isAdmin := none })

/-- Result of the ProtectedRoute component: the loading indicator, a
Navigate element (target and the replace flag), or the children. -/
inductive GuardResult where
  | loading
  | redirect (target : String) (replace : Bool)
  | render
deriving DecidableEq, Repr

/-- ProtectedRoute of App.tsx: isLoading first, then the null-user
check, then the adminOnly privilege check, otherwise the children. -/
def protectedRoute (user : Option User) (isAdmin : Bool) (isLoading : Bool)
    (adminOnly : Bool := false) : GuardResult :=
  if isLoading then .loading
  else if user.isNone then .redirect "/login" true
  else if adminOnly && !isAdmin then .redirect "/dashboard" true
  else .render

/-- One operation applied to the session store: the mount effect
(initialize), login with explicit arguments, or logout. -/
inductive AuthOp where
  | init
  | loginOp (t : String) (u : User) (a : Bool)
  | logoutOp
deriving DecidableEq, Repr

/-- The session state together with durable storage. -/
structure AppState where
  session : Session
  storage : Storage
deriving DecidableEq, Repr

/-- Apply one AuthOp to the combined state. -/
def stepOp (a : AppState) : AuthOp → AppState
  | .init => { a with session := initializeSession a.session a.storage }
  | .loginOp t u adm =>
      let p := login a.session a.storage t u adm
      { session := p.1, storage := p.2 }
  | .logoutOp =>
      let p := logout a.session a.storage
      { session := p.1, storage := p.2 }

/-- Run a sequence of AuthOps from a state. -/
def runOps (a : AppState) (ops : List AuthOp) : AppState :=
  ops.foldl stepOp a

/-- The Session invariant of the spec, as a boolean: token and user
both present or both absent, and isAdmin false when user is absent. -/
def sessionInvB (s : Session) : Bool :=
  (s.token.isSome == s.user.isSome) && (s.user.isSome || !s.isAdmin)

/-- Outcome of JSON-parsing a response body: response.json() either
rejects (non-JSON body) or yields data, represented by the string
value of its message field when it has one. -/
inductive BodyParse where
  | parseError (e : String)
  | parsed (message : Option String)
deriving DecidableEq, Repr

/-- Outcome of the fetch call inside ApiClient.request: either the
network call itself fails, or a response with some HTTP status whose
body parses as described by BodyParse. -/
inductive FetchOutcome where
  | netFailure (e : String)
  | response (status : Nat) (body : BodyParse)
deriving DecidableEq, Repr

/-- The error rethrown by ApiClient.request: the underlying network
failure, the JSON-parse failure, or the Error built from the message
of a non-ok response. -/
inductive RequestError where
  | network (e : String)
  | jsonParse (e : String)
  | api (message : String)
deriving DecidableEq, Repr

/-- response.ok of the fetch API: status in the range 200..299. -/
def respOk (status : Nat) : Bool :=
  decide (200 ≤ status) && decide (status < 300)

/-- JavaScript disjunction on the message field, restricted to string
values: m or fallback is fallback when m is absent or empty. -/
def jsOrString (m : Option String) (fallback : String) : String :=
  match m with
  | some s => if s = "" then fallback else s
  | none => fallback

/-- ApiClient.request of src/lib/api.ts, as a function of the fetch
outcome: await response.json() first (so a parse failure propagates
whatever the status is), then throw new Error(data.message or the
fallback) when response.ok is false, else return the data. -/
def request (outcome : FetchOutcome) : Except RequestError (Option String) :=
  match outcome with
  | .netFailure e => .error (.network e)
  | .response status body =>
    match body with
    | .parseError e => .error (.jsonParse e)
    | .parsed msg =>
      if respOk status then .ok msg
      else .error (.api (jsOrString msg "API request failed"))

/-- ApiClient.getAuthHeaders: Content-Type always; Authorization
exactly when the token argument is given and truthy. -/
def getAuthHeaders (token : Option String := none) : List (String × String) :=
  let headers := [("Content-Type", "application/json")]
  match token with
  | some t => if t != "" then headers ++ [("Authorization", "Bearer " ++ t)] else headers
  | none => headers

/-- Options of getAllArticles, in declaration order of the object
type: page, limit, category, search. -/
structure AllArticlesParams where
  page : Option Nat := none
  limit : Option Nat := none
  category : Option String := none
  search : Option String := none
deriving DecidableEq, Repr

/-- Options of getUserArticles: page, limit, status. -/
structure UserArticlesParams where
  page : Option Nat := none
  limit : Option Nat := none
  status : Option String := none
deriving DecidableEq, Repr

/-- Options of getPendingArticles: page, limit. -/
structure PendingArticlesParams where
  page : Option Nat := none
  limit : Option Nat := none
deriving DecidableEq, Repr

/-- Options of getAllArticlesAdmin: page, limit, status, search. -/
structure AdminArticlesParams where
  page : Option Nat := none
  limit : Option Nat := none
  status : Option String := none
  search : Option String := none
deriving DecidableEq, Repr

/-- Options of getAllUsers: page, limit, search. -/
structure AllUsersParams where
  page : Option Nat := none
  limit : Option Nat := none
  search : Option String := none
deriving DecidableEq, Repr

/-- Object.entries of an AllArticlesParams value, each value rendered
by toString as the code does before appending. -/
def allArticlesEntries (p : AllArticlesParams) : List (String × Option String) :=
  [("page", p.page.map toString), ("limit", p.limit.map toString),
   ("category", p.category), ("search", p.search)]

/-- Object.entries of a UserArticlesParams value. -/
def userArticlesEntries (p : UserArticlesParams) : List (String × Option String) :=
  [("page", p.page.map toString), ("limit", p.limit.map toString),
   ("status", p.status)]

/-- Object.entries of a PendingArticlesParams value. -/
def pendingArticlesEntries (p : PendingArticlesParams) : List (String × Option String) :=
  [("page", p.page.map toString), ("limit", p.limit.map toString)]

/-- Object.entries of an AdminArticlesParams value. -/
def adminArticlesEntries (p : AdminArticlesParams) : List (String × Option String) :=
  [("page", p.page.map toString), ("limit", p.limit.map toString),
   ("status", p.status), ("search", p.search)]

/-- Object.entries of an AllUsersParams value. -/
def allUsersEntries (p : AllUsersParams) : List (String × Option String) :=
  [("page", p.page.map toString), ("limit", p.limit.map toString),
   ("search", p.search)]

/-- The forEach loop of every list operation: append the pair exactly
when the value is not undefined. -/
def appendDefined (entries : List (String × Option String)) : List (String × String) :=
  entries.filterMap (fun kv => kv.2.map (fun v => (kv.1, v)))

/-- The keys appended to the URLSearchParams object. -/
def queryKeys (entries : List (String × Option String)) : List String :=
  (appendDefined entries).map Prod.fst

/-- URLSearchParams.toString over the appended pairs (percent-encoding
of values is not modelled; no key or value here needs it). -/
def searchParamsToString (pairs : List (String × String)) : String :=
  String.intercalate "&" (pairs.map (fun kv => kv.1 ++ "=" ++ kv.2))

/-- Path building shared by the list operations: base, then a question
mark and the query string only when the latter is non-empty. -/
def pathWithQuery (base : String) (entries : List (String × Option String)) : String :=
  let qs := searchParamsToString (appendDefined entries)
  base ++ (if qs = "" then "" else "?" ++ qs)

/-- getAllArticles target path. -/
def getAllArticlesPath (p : Option AllArticlesParams) : String :=
  pathWithQuery "/users/articles" (match p with | some q => allArticlesEntries q | none => [])

/-- getUserArticles target path. -/
def getUserArticlesPath (p : Option UserArticlesParams) : String :=
  pathWithQuery "/users/my-articles" (match p with | some q => userArticlesEntries q | none => [])

/-- getPendingArticles target path. -/
def getPendingArticlesPath (p : Option PendingArticlesParams) : String :=
  pathWithQuery "/admin/articles/pending" (match p with | some q => pendingArticlesEntries q | none => [])

/-- getAllArticlesAdmin target path. -/
def getAllArticlesAdminPath (p : Option AdminArticlesParams) : String :=
  pathWithQuery "/admin/articles" (match p with | some q => adminArticlesEntries q | none => [])

/-- getAllUsers target path. -/
def getAllUsersPath (p : Option AllUsersParams) : String :=
  pathWithQuery "/admin/users" (match p with | some q => allUsersEntries q | none => [])

/-- The formData state of Register.tsx. -/
structure RegisterForm where
  username : String
  email : String
  password : String
  confirmPassword : String
deriving DecidableEq, Repr

/-- A network call the register handler can issue. -/
inductive RegisterNetCall where
  | registerUser (username email password : String)
  | registerAdmin (username email password : String)
deriving DecidableEq, Repr

/-- A toast shown by the register handler. -/
inductive RegisterToast where
  | passwordMismatch
  | registered (name : String)
  | failed (msg : String)
deriving DecidableEq, Repr

/-- Outcome of the awaited register API call: the request rejects with
an error message, or resolves to a response with a success flag, a
token and the returned user-or-admin record. -/
inductive RegisterOutcome where
  | throws (msg : String)
  | resolves (success : Bool) (token : String) (u : User)
deriving DecidableEq, Repr

/-- What one run of Register.handleSubmit did. -/
structure SubmitResult where
  netCalls : List RegisterNetCall
  toast : Option RegisterToast
  session : Session
  storage : Storage
  navigatedTo : Option String
deriving DecidableEq, Repr

/-- Register.handleSubmit: on password-confirmation mismatch, toast
and return before any request; otherwise issue the register call for
the active tab and, when the response resolves with success, login
with the returned token and record and navigate; a rejection is caught
and surfaced as an error toast. -/
def handleRegisterSubmit (adminTab : Bool) (f : RegisterForm)
    (outcome : RegisterOutcome) (s : Session) (st : Storage) : SubmitResult :=
  if f.password != f.confirmPassword then
    { netCalls := [], toast := some .passwordMismatch,
      session := s, storage := st, navigatedTo := none }
  else
    let call := if adminTab then
        RegisterNetCall.registerAdmin f.username f.email f.password
      else
        RegisterNetCall.registerUser f.username f.email f.password
    match outcome with
    | .throws msg =>
      { netCalls := [call], toast := some (.failed msg),
        session := s, storage := st, navigatedTo := none }
    | .resolves success tok u =>
      if success then
        let p := login s st tok u adminTab
        { netCalls := [call], toast := some (.registered u.username),
          session := p.1, storage := p.2,
          navigatedTo := some (if adminTab then "/admin/dashboard" else "/dashboard") }
      else
        { netCalls := [call], toast := none,
          session := s, storage := st, navigatedTo := none }

/-- An API call issued by the admin moderation views. -/
inductive AdminApiCall where
  | approveArticle (id : String)
  | fetchAdminArticles
  | fetchPendingArticles
deriving DecidableEq, Repr

/-- AdminArticles.handleApproveArticle: the guard is the JavaScript
truthiness test if (!token) return, so a null or empty token returns
early with no requests; otherwise await approveArticle and, only once
it has resolved successfully, issue fetchArticles; on rejection only
the error toast runs. -/
def adminArticlesApprove (token : Option String) (articleId : String)
    (approveResolves : Bool) : List AdminApiCall :=
  if jsTruthy token then
    [AdminApiCall.approveArticle articleId] ++
      (if approveResolves then [AdminApiCall.fetchAdminArticles] else [])
  else []

/-- AdminPending.handleApproveArticle: same shape, same truthiness
guard, refetching the pending list. -/
def adminPendingApprove (token : Option String) (articleId : String)
    (approveResolves : Bool) : List AdminApiCall :=
  if jsTruthy token then
    [AdminApiCall.approveArticle articleId] ++
      (if approveResolves then [AdminApiCall.fetchPendingArticles] else [])
  else []

/-- Test for the approve event in a trace. -/
def isApproveCall : AdminApiCall → Bool
  | .approveArticle _ => true
  | _ => false

/-- Test for a list-refetch event in a trace. -/
def isRefetchCall : AdminApiCall → Bool
  | .fetchAdminArticles => true
  | .fetchPendingArticles => true
  | _ => false

/-- Test for the setIsLoading setter among AuthProvider effects. -/
def isSetLoading : AuthEffect → Bool
  | .setIsLoading _ => true
  | _ => false

/-- Arbitrary raw content of the user storage key, classified by what
JSON.parse does to it: parsed u is a string JSON.parse accepts,
represented by the record it denotes (such a string is never empty,
since JSON.parse rejects the empty string, hence always truthy);
malformed raw is a string on which JSON.parse throws. -/
inductive RawUserContent where
  | parsed (u : User)
  | malformed (raw : String)
deriving DecidableEq, Repr

/-- Durable storage with the user key held as raw content, so that
tampered values on which JSON.parse throws are representable. -/
structure RawStorage where
  token : Option String
  user : Option RawUserContent
  isAdmin : Option String
deriving DecidableEq, Repr

/-- Whether the mount effect hits the JSON.parse throw on this
content: the guard storedToken and storedUser passes (both truthy)
and the stored user string is malformed. -/
def parseThrows (st : RawStorage) : Bool :=
  match st.user with
  | some (RawUserContent.malformed raw) => jsTruthy st.token && (raw != "")
  | _ => false

/-- The mount effect of AuthProvider over raw storage content: the
setters that actually ran, paired with whether the effect ran to
completion.  Inside the guarded branch setToken runs first, then
JSON.parse(storedUser) — which on malformed content throws, so
setUser, setIsAdmin and the trailing setIsLoading(false) never
execute; on every other content the effect completes with
setIsLoading(false) last. -/
def initializeEffectsRaw (st : RawStorage) : List AuthEffect × Bool :=
  match st.user with
  | some (RawUserContent.parsed u) =>
    if jsTruthy st.token then
      ([AuthEffect.setToken st.token, AuthEffect.setUser (some u),
        AuthEffect.setIsAdmin (st.isAdmin == some "true"),
        AuthEffect.setIsLoading false], true)
    else ([AuthEffect.setIsLoading false], true)
  | some (RawUserContent.malformed raw) =>
    if jsTruthy st.token && (raw != "") then
      ([AuthEffect.setToken st.token], false)
    else ([AuthEffect.setIsLoading false], true)
  | none => ([AuthEffect.setIsLoading false], true)

/-- The parsed-level view of raw storage: the user slot holds the
record exactly when the raw string parses as one. -/
def toStorage (st : RawStorage) : Storage :=
  { token := st.token,
    user := match st.user with
            | some (RawUserContent.parsed u) => some u
            | _ => none,
    isAdmin := st.isAdmin }

/-- A sample user record for concrete instantiations. -/
def sampleUser : User :=
  { id := "1", username := "alice", email := "a@x.com" }

/-- The mount effect in closed form: when storedToken and storedUser
are both truthy it populates the three fields and clears isLoading,
otherwise it only clears isLoading. -/
theorem initializeSession_eq (s : Session) (st : Storage) :
    initializeSession s st =
      if jsTruthy st.token && st.user.isSome then
        { s with token := st.token, user := st.user,
                 isAdmin := (st.isAdmin == some "true"), isLoading := false }
      else { s with isLoading := false } := by
  unfold initializeSession initializeEffects applyEffects
  split <;> rfl

/-- C1: ProtectedRoute decides in fixed order: loading first (no
redirect while isLoading), then null user redirects to /login with
replace for both flavors, then an admin-only route with a non-admin
user redirects to /dashboard with replace, otherwise the children
render unchanged. -/
theorem protectedRoute_cases (u : Option User) (adm ld ao : Bool) :
    (ld = true → protectedRoute u adm ld ao = .loading) ∧
    (ld = false → u = none → protectedRoute u adm ld ao = .redirect "/login" true) ∧
    (ld = false → u ≠ none → ao = true → adm = false →
      protectedRoute u adm ld ao = .redirect "/dashboard" true) ∧
    (ld = false → u ≠ none → (ao = false ∨ adm = true) →
      protectedRoute u adm ld ao = .render) := by
  cases u <;> cases adm <;> cases ld <;> cases ao <;> simp [protectedRoute]

/-- Witness for C1 at concrete session states. -/
theorem protectedRoute_cases_witness :
    protectedRoute none true true true = .loading ∧
    protectedRoute none false false false = .redirect "/login" true ∧
    protectedRoute (some sampleUser) false false true = .redirect "/dashboard" true ∧
    protectedRoute (some sampleUser) false false false = .render :=
  ⟨(protectedRoute_cases none true true true).1 rfl,
   (protectedRoute_cases none false false false).2.1 rfl rfl,
   (protectedRoute_cases (some sampleUser) false false true).2.2.1 rfl
     (Option.some_ne_none _) rfl rfl,
   (protectedRoute_cases (some sampleUser) false false false).2.2.2 rfl
     (Option.some_ne_none _) (Or.inl rfl)⟩

/-- C2: login with a well-formed (non-empty) token followed by a fresh
mount-effect run over the storage login wrote reproduces the same
token, user record and isAdmin flag. -/
theorem login_reload_roundtrip (s : Session) (st : Storage) (t : String) (u : User)
    (a : Bool) (h : t ≠ "") :
    (initializeSession initialState (login s st t u a).2).token = (login s st t u a).1.token ∧
    (initializeSession initialState (login s st t u a).2).user = (login s st t u a).1.user ∧
    (initializeSession initialState (login s st t u a).2).isAdmin = (login s st t u a).1.isAdmin := by
  rw [initializeSession_eq]
  simp only [login, jsTruthy]
  rw [if_pos]
  · refine ⟨rfl, rfl, ?_⟩
    cases a <;> simp only [Session.isAdmin] <;> decide
  · simp [h]

/-- Witness for C2: a concrete login (with the adminStatus argument
omitted, exercising the false default) reloads to the same session. -/
theorem login_reload_roundtrip_witness :
    (initializeSession initialState (login initialState emptyStorage "tok" sampleUser).2).token
      = (login initialState emptyStorage "tok" sampleUser).1.token ∧
    (initializeSession initialState (login initialState emptyStorage "tok" sampleUser).2).user
      = (login initialState emptyStorage "tok" sampleUser).1.user ∧
    (initializeSession initialState (login initialState emptyStorage "tok" sampleUser).2).isAdmin
      = (login initialState emptyStorage "tok" sampleUser).1.isAdmin :=
  login_reload_roundtrip initialState emptyStorage "tok" sampleUser false (by decide)

/-- C5: login then logout leaves token and user null, isAdmin false,
and removes all three durable-storage keys. -/
theorem login_logout_clears (s : Session) (st : Storage) (t : String) (u : User) (a : Bool) :
    (logout (login s st t u a).1 (login s st t u a).2).1.token = none ∧
    (logout (login s st t u a).1 (login s st t u a).2).1.user = none ∧
    (logout (login s st t u a).1 (login s st t u a).2).1.isAdmin = false ∧
    (logout (login s st t u a).1 (login s st t u a).2).2 = emptyStorage :=
  ⟨rfl, rfl, rfl, rfl⟩

/-- On every content where JSON.parse is not invoked on malformed
input, the raw mount effect completes and its setters agree with
initializeEffects over the parsed-level view of the storage. -/
theorem initializeEffectsRaw_agrees (st : RawStorage) (h : parseThrows st = false) :
    (initializeEffectsRaw st).1 = initializeEffects (toStorage st) := by
  rcases st with ⟨tok, usr, adm⟩
  rcases usr with _ | cu
  · simp [initializeEffectsRaw, initializeEffects, toStorage]
  · rcases cu with u | raw
    · cases ht : jsTruthy tok <;>
        simp [initializeEffectsRaw, initializeEffects, toStorage, ht]
    · simp only [parseThrows] at h
      simp [initializeEffectsRaw, initializeEffects, toStorage, h]

/-- C7 counterexample: with a truthy stored token and a truthy
non-JSON user string, JSON.parse throws right after setToken, so the
mount effect does not complete and setIsLoading is never called. -/
theorem initialize_malformed_user_skips_isLoading :
    (initializeEffectsRaw
      { token := some "t", user := some (RawUserContent.malformed "not json"),
        isAdmin := none }).2 = false ∧
    (initializeEffectsRaw
      { token := some "t", user := some (RawUserContent.malformed "not json"),
        isAdmin := none }).1.countP isSetLoading = 0 ∧
    (initializeEffectsRaw
      { token := some "t", user := some (RawUserContent.malformed "not json"),
        isAdmin := none }).1 = [AuthEffect.setToken (some "t")] := by
  decide

/-- C7 (amended): on every storage content on which the mount effect
does not hit the JSON.parse throw (the stored user string is absent,
falsy, or valid JSON), the effect runs to completion and calls
setIsLoading exactly once, as its last setter, with value false. -/
theorem initialize_sets_isLoading_once (st : RawStorage) (h : parseThrows st = false) :
    (initializeEffectsRaw st).2 = true ∧
    (initializeEffectsRaw st).1.countP isSetLoading = 1 ∧
    (initializeEffectsRaw st).1.getLast? = some (AuthEffect.setIsLoading false) := by
  rcases st with ⟨tok, usr, adm⟩
  rcases usr with _ | cu
  · exact ⟨rfl, rfl, rfl⟩
  · rcases cu with u | raw
    · simp only [initializeEffectsRaw]
      split <;> exact ⟨rfl, rfl, rfl⟩
    · simp only [parseThrows] at h
      simp only [initializeEffectsRaw, h]
      exact ⟨rfl, rfl, rfl⟩

/-- Witness for C7 at a concrete fully-populated valid storage and at
the empty storage. -/
theorem initialize_sets_isLoading_once_witness :
    (initializeEffectsRaw
      { token := some "t", user := some (RawUserContent.parsed sampleUser),
        isAdmin := some "true" }).2 = true ∧
    (initializeEffectsRaw
      { token := some "t", user := some (RawUserContent.parsed sampleUser),
        isAdmin := some "true" }).1.countP isSetLoading = 1 ∧
    (initializeEffectsRaw
      { token := some "t", user := some (RawUserContent.parsed sampleUser),
        isAdmin := some "true" }).1.getLast? = some (AuthEffect.setIsLoading false) :=
  initialize_sets_isLoading_once
    { token := some "t", user := some (RawUserContent.parsed sampleUser),
      isAdmin := some "true" } (by decide)

/-- Preservation of the session invariant by each operation. -/
theorem sessionInv_step (a : AppState) (op : AuthOp) (h : sessionInvB a.session = true) :
    sessionInvB (stepOp a op).session = true := by
  cases op with
  | init =>
    simp only [stepOp]
    rw [initializeSession_eq]
    split
    case isTrue hc =>
      rcases Bool.and_eq_true_iff.mp hc with ⟨h1, h2⟩
      cases ht : a.storage.token with
      | none => rw [ht] at h1; exact absurd h1 (by simp [jsTruthy])
      | some tv => simp [sessionInvB, ht, h2]
    case isFalse =>
      simpa [sessionInvB] using h
  | loginOp t u adm => simp [stepOp, login, sessionInvB]
  | logoutOp => simp [stepOp, logout, sessionInvB]

/-- C3: in every state reachable from the initial session (over any
starting storage) by initialize, login and logout operations, token
and user are both present or both absent, and isAdmin is false when
user is absent. -/
theorem auth_reachable_inv (st0 : Storage) (ops : List AuthOp) :
    sessionInvB (runOps { session := initialState, storage := st0 } ops).session = true := by
  suffices h : ∀ a : AppState, sessionInvB a.session = true →
      sessionInvB (runOps a ops).session = true from h _ rfl
  induction ops with
  | nil => intro a h; exact h
  | cons op rest ih => intro a h; exact ih _ (sessionInv_step a op h)

/-- C4 counterexample: a non-2xx JSON response whose message field is
present but the empty string produces the fallback message, not an
error whose message is that empty string. -/
theorem request_empty_message_fallback :
    request (.response 400 (.parsed (some ""))) = .error (.api "API request failed") ∧
    request (.response 400 (.parsed (some ""))) ≠ .error (.api "") := by
  refine ⟨rfl, ?_⟩
  intro h
  simp [request, jsOrString, respOk] at h

/-- C4 (amended): on a non-2xx response with a non-empty message X the
raised error's message is exactly X; with no message field (or an
empty one, per the counterexample) the fallback is used; a network
failure is rethrown as-is. -/
theorem request_error_paths (status : Nat) (e m : String)
    (hs : respOk status = false) (hm : m ≠ "") :
    request (.response status (.parsed (some m))) = .error (.api m) ∧
    request (.response status (.parsed none)) = .error (.api "API request failed") ∧
    request (.netFailure e) = .error (.network e) := by
  refine ⟨?_, ?_, rfl⟩ <;> simp [request, jsOrString, hs, hm]

/-- Witness for C4 at a concrete 404 response and network failure. -/
theorem request_error_paths_witness :
    request (.response 404 (.parsed (some "X"))) = .error (.api "X") ∧
    request (.response 404 (.parsed none)) = .error (.api "API request failed") ∧
    request (.netFailure "offline") = .error (.network "offline") :=
  request_error_paths 404 "offline" "X" (by decide) (by decide)

/-- C10: the body is parsed before the status is inspected, so any
response whose body is not valid JSON — whatever its status — raises
the JSON-parse failure, never the api-message error. -/
theorem request_parses_before_status (status : Nat) (e : String) :
    request (.response status (.parseError e)) = .error (.jsonParse e) :=
  rfl

/-- C9 counterexample: getAuthHeaders with a supplied but empty token
carries no Authorization header, against the claim's "exactly when a
token was supplied". -/
theorem getAuthHeaders_empty_token :
    getAuthHeaders (some "") = [("Content-Type", "application/json")] ∧
    ¬ ∃ v, ("Authorization", v) ∈ getAuthHeaders (some "") := by
  refine ⟨rfl, ?_⟩
  rintro ⟨v, hv⟩
  simp [getAuthHeaders] at hv

/-- C9 (amended): each list operation's query holds exactly the keys
whose option value is defined, in declaration order; every header set
contains Content-Type application/json; and Authorization Bearer t is
attached exactly when a non-empty token t was supplied. -/
theorem list_ops_query_and_headers :
    (∀ p : AllArticlesParams, queryKeys (allArticlesEntries p) =
      (if p.page.isSome then ["page"] else []) ++ (if p.limit.isSome then ["limit"] else []) ++
      (if p.category.isSome then ["category"] else []) ++ (if p.search.isSome then ["search"] else [])) ∧
    (∀ p : UserArticlesParams, queryKeys (userArticlesEntries p) =
      (if p.page.isSome then ["page"] else []) ++ (if p.limit.isSome then ["limit"] else []) ++
      (if p.status.isSome then ["status"] else [])) ∧
    (∀ p : PendingArticlesParams, queryKeys (pendingArticlesEntries p) =
      (if p.page.isSome then ["page"] else []) ++ (if p.limit.isSome then ["limit"] else [])) ∧
    (∀ p : AdminArticlesParams, queryKeys (adminArticlesEntries p) =
      (if p.page.isSome then ["page"] else []) ++ (if p.limit.isSome then ["limit"] else []) ++
      (if p.status.isSome then ["status"] else []) ++ (if p.search.isSome then ["search"] else [])) ∧
    (∀ p : AllUsersParams, queryKeys (allUsersEntries p) =
      (if p.page.isSome then ["page"] else []) ++ (if p.limit.isSome then ["limit"] else []) ++
      (if p.search.isSome then ["search"] else [])) ∧
    (∀ tok : Option String, ("Content-Type", "application/json") ∈ getAuthHeaders tok) ∧
    (∀ t : String, t ≠ "" → getAuthHeaders (some t) =
      [("Content-Type", "application/json"), ("Authorization", "Bearer " ++ t)]) ∧
    getAuthHeaders none = [("Content-Type", "application/json")] := by
  refine ⟨?_, ?_, ?_, ?_, ?_, ?_, ?_, rfl⟩
  · rintro ⟨pg, lm, ct, se⟩
    cases pg <;> cases lm <;> cases ct <;> cases se <;> rfl
  · rintro ⟨pg, lm, sta⟩
    cases pg <;> cases lm <;> cases sta <;> rfl
  · rintro ⟨pg, lm⟩
    cases pg <;> cases lm <;> rfl
  · rintro ⟨pg, lm, sta, se⟩
    cases pg <;> cases lm <;> cases sta <;> cases se <;> rfl
  · rintro ⟨pg, lm, se⟩
    cases pg <;> cases lm <;> cases se <;> rfl
  · intro tok
    cases tok with
    | none => simp [getAuthHeaders]
    | some t => simp only [getAuthHeaders]; split <;> simp
  · intro t ht
    simp [getAuthHeaders, ht]

/-- Witness for C9 at a concrete options object and token. -/
theorem list_ops_query_and_headers_witness :
    queryKeys (allArticlesEntries { page := some 2, search := some "rust" }) = ["page", "search"] ∧
    getAuthHeaders (some "tok") =
      [("Content-Type", "application/json"), ("Authorization", "Bearer tok")] := by
  constructor
  · have h := list_ops_query_and_headers.1 { page := some 2, search := some "rust" }
    simpa using h
  · exact list_ops_query_and_headers.2.2.2.2.2.2.1 "tok" (by decide)

/-- C6 counterexample: the guard if (!token) return is a truthiness
test, so with a supplied but empty token both approve handlers return
early and issue no requests at all, against the claim's unconditional
approve-then-refetch trace for an authenticated admin. -/
theorem approve_empty_token_no_requests :
    adminArticlesApprove (some "") "A1" true = [] ∧
    adminPendingApprove (some "") "A1" true = [] ∧
    adminArticlesApprove (some "") "A1" true ≠
      [AdminApiCall.approveArticle "A1", AdminApiCall.fetchAdminArticles] := by
  decide

/-- C6 (amended): with a non-empty token present and the awaited
approve call resolving, each approve handler issues exactly one
approve request for the id followed by exactly one refetch of its
list, in that order; when the approve call rejects no refetch is
issued, so the refetch is only ever emitted after the approve call
has completed successfully. -/
theorem approve_then_refetch (tok aid : String) (h : tok ≠ "") :
    adminArticlesApprove (some tok) aid true =
      [AdminApiCall.approveArticle aid, AdminApiCall.fetchAdminArticles] ∧
    (adminArticlesApprove (some tok) aid true).countP isApproveCall = 1 ∧
    (adminArticlesApprove (some tok) aid true).countP isRefetchCall = 1 ∧
    (adminArticlesApprove (some tok) aid false).countP isRefetchCall = 0 ∧
    adminPendingApprove (some tok) aid true =
      [AdminApiCall.approveArticle aid, AdminApiCall.fetchPendingArticles] ∧
    (adminPendingApprove (some tok) aid false).countP isRefetchCall = 0 := by
  refine ⟨?_, ?_, ?_, ?_, ?_, ?_⟩ <;>
    simp [adminArticlesApprove, adminPendingApprove, jsTruthy, h,
      List.countP_cons, isApproveCall, isRefetchCall]

/-- Witness for C6 at a concrete token and article id. -/
theorem approve_then_refetch_witness :
    adminArticlesApprove (some "tok") "A1" true =
      [AdminApiCall.approveArticle "A1", AdminApiCall.fetchAdminArticles] ∧
    adminPendingApprove (some "tok") "A1" true =
      [AdminApiCall.approveArticle "A1", AdminApiCall.fetchPendingArticles] :=
  ⟨(approve_then_refetch "tok" "A1" (by decide)).1,
   (approve_then_refetch "tok" "A1" (by decide)).2.2.2.2.1⟩

/-- C8: on a password-confirmation mismatch the register handler
issues no network call, shows the mismatch toast, and leaves session
and storage unchanged. -/
theorem register_mismatch_no_request (adminTab : Bool) (f : RegisterForm)
    (outcome : RegisterOutcome) (s : Session) (st : Storage)
    (h : f.password ≠ f.confirmPassword) :
    (handleRegisterSubmit adminTab f outcome s st).netCalls = [] ∧
    (handleRegisterSubmit adminTab f outcome s st).toast = some RegisterToast.passwordMismatch ∧
    (handleRegisterSubmit adminTab f outcome s st).session = s ∧
    (handleRegisterSubmit adminTab f outcome s st).storage = st := by
  simp [handleRegisterSubmit, h]

/-- Witness for C8 at a concrete mismatched form. -/
theorem register_mismatch_no_request_witness :
    (handleRegisterSubmit false
      { username := "alice", email := "a@x.com", password := "p1", confirmPassword := "p2" }
      (RegisterOutcome.throws "e") initialState emptyStorage).netCalls = [] ∧
    (handleRegisterSubmit false
      { username := "alice", email := "a@x.com", password := "p1", confirmPassword := "p2" }
      (RegisterOutcome.throws "e") initialState emptyStorage).toast
        = some RegisterToast.passwordMismatch ∧
    (handleRegisterSubmit false
      { username := "alice", email := "a@x.com", password := "p1", confirmPassword := "p2" }
      (RegisterOutcome.throws "e") initialState emptyStorage).session = initialState ∧
    (handleRegisterSubmit false
      { username := "alice", email := "a@x.com", password := "p1", confirmPassword := "p2" }
      (RegisterOutcome.throws "e") initialState emptyStorage).storage = emptyStorage :=
  register_mismatch_no_request false
    { username := "alice", email := "a@x.com", password := "p1", confirmPassword := "p2" }
    (RegisterOutcome.throws "e") initialState emptyStorage (by decide)
